import Mathlib

/-!
Verification development for the Qobuz music-provider client
(`music_assistant/modules/musicproviders/qobuz.py`).

The Python module is shallowly embedded below: dynamic JSON records become
structures with `Option` fields (a `none` models an absent key), Python
exceptions become an `Except PyErr` result, Python `None` returned by a
parser becomes `Option`, and external helpers that live outside this module
(`parse_track_title` from `utils`, `datetime.fromtimestamp(..).year`, the
numeric to-string formatting of the interpreter) are abstracted into a
context record `Ctx` that theorems quantify over.
-/

namespace Qobuz

/-! ## String helpers (kernel-reducible replacements for `String.splitOn`) -/

/-- Fuel-indexed worker for `strSplitOn`: scans `s`, cutting at every
non-overlapping occurrence of `sep` (Python `str.split(sep)` semantics). -/
def splitGo (sep : List Char) : Nat → List Char → List Char → List (List Char)
  | 0, s, acc => [acc.reverse ++ s]
  | Nat.succ fuel, s, acc =>
    match s with
    | [] => [acc.reverse]
    | c :: rest =>
      if sep.isPrefixOf (c :: rest) then
        acc.reverse :: splitGo sep fuel (List.drop sep.length (c :: rest)) []
      else
        splitGo sep fuel rest (c :: acc)

/-- Python `str.split(sep)` for a non-empty separator. -/
def strSplitOn (sep s : String) : List String :=
  if sep.data = [] then [s]
  else (splitGo sep.data (s.data.length + 1) s.data []).map String.mk

/-- Structural substring-of-char-list test. -/
def infixGo (needle : List Char) : List Char → Bool
  | [] => needle.isEmpty
  | c :: rest => needle.isPrefixOf (c :: rest) || infixGo needle rest

/-- Python `needle in hay` on strings (substring test). -/
def strContains (needle hay : String) : Bool :=
  infixGo needle.data hay.data

/-- Python `str.lower()` (structural, character by character). -/
def strToLower (s : String) : String :=
  String.mk (s.data.map Char.toLower)

/-- Python truthiness of an optional string field (absent, `None` and `""`
are all falsy). -/
def strTruthy : Option String → Bool
  | none => false
  | some s => !s.isEmpty

/-- Python truthiness of an optional integer id (absent, `None` and `0` are
falsy), as tested by `not obj.get(key)`. -/
def idTruthy : Option Nat → Bool
  | none => false
  | some n => n != 0

/-- Python truthiness of an optional integer field (absent and `0` falsy). -/
def intTruthy : Option Int → Bool
  | none => false
  | some n => n != 0

/-- The numeric value stored by `obj[key]` once truthiness is established. -/
def idOf : Option Nat → Nat
  | none => 0
  | some n => n

/-! ## Enumerations and identifiers -/

/-- Modelled from the spec: the quality-tier enumeration consumed from the
host's `models` module (not part of this file); §4.6 names four hi-res
tiers above standard lossless plus a lossy tier. -/
inductive TrackQuality where
  | FLAC_LOSSLESS_HI_RES_4
  | FLAC_LOSSLESS_HI_RES_3
  | FLAC_LOSSLESS_HI_RES_2
  | FLAC_LOSSLESS_HI_RES_1
  | LOSSY_AAC
  | FLAC_LOSSLESS
deriving DecidableEq, Repr

/-- Modelled from the spec: the album-type enumeration from the host's
`models` module; §4.6 lists Single, Album, Compilation. -/
inductive AlbumType where
  | Single
  | Album
  | Compilation
deriving DecidableEq, Repr

/-- A Python `item_id` value, which the module stores either as the upstream
integer id or (in the performers-string fallback) as a name string. -/
inductive ItemId where
  | num (n : Nat)
  | str (s : String)
deriving DecidableEq, Repr

/-- `self.prov_id` (line 43). -/
def prov_id : String := "qobuz"

/-- `Throttler(rate_limit=2, period=1)` (line 51): requests per window. -/
def throttlerRateLimit : Nat := 2

/-- `Throttler(rate_limit=2, period=1)` (line 51): window length, seconds. -/
def throttlerPeriod : Nat := 1

/-! ## Raw upstream records (dynamic JSON, fields optional) -/

/-- An upstream `image` map with the four preference keys. -/
structure ImageObj where
  extralarge : Option String := none
  large : Option String := none
  medium : Option String := none
  small : Option String := none
deriving DecidableEq, Repr

/-- An upstream `biography` map (`{'content': ...}`). -/
structure BioObj where
  content : Option String := none
deriving DecidableEq, Repr

/-- An upstream `genre` map (`{'name': ...}`). -/
structure GenreObj where
  name : String
deriving DecidableEq, Repr

/-- An upstream `label` map (`{'name': ...}`). -/
structure LabelObj where
  name : String
deriving DecidableEq, Repr

/-- An upstream artist/performer record. `extraKeys` lists any further keys
present in the raw dict besides the schema ones; the module's
`'Various ' in track_obj['performer']` test is Python dict *key* membership,
which only these keys can satisfy (no schema key equals `"Various "`). -/
structure ArtistObj where
  id : Option Nat := none
  name : String := ""
  -- for the `image` and `biography` maps, tested with `.get(key)` truthiness,
  -- `none` models an absent key or a falsy (empty) map
  image : Option ImageObj := none
  biography : Option BioObj := none
  url : Option String := none
  extraKeys : List String := []
deriving DecidableEq, Repr

/-- Python `'Various ' in d` on a raw artist dict: key membership. -/
def hasVariousKey (a : ArtistObj) : Bool :=
  a.extraKeys.contains ("Various ")

/-- An upstream album record. Fields read by direct indexing in the source
(`title`, `upc`, `maximum_sampling_rate`, `maximum_bit_depth`) are required;
fields read via `.get` are `Option`. -/
structure AlbumObj where
  id : Option Nat := none
  streamable : Bool := true
  displayable : Bool := true
  title : String := ""
  artist : Option ArtistObj := none
  product_type : Option String := none
  genre : Option GenreObj := none
  image : Option ImageObj := none
  upc : String := ""
  label : Option LabelObj := none
  released_at : Option Int := none
  copyright : Option String := none
  hires : Bool := false
  url : Option String := none
  description : Option String := none
  maximum_sampling_rate : ℚ := 0
  maximum_bit_depth : Int := 0
deriving DecidableEq, Repr

/-- An upstream track record (same required/optional convention). -/
structure TrackObj where
  id : Option Nat := none
  streamable : Bool := true
  displayable : Bool := true
  performer : Option ArtistObj := none
  album : Option AlbumObj := none
  performers : Option String := none
  title : String := ""
  -- `version` is indexed directly at line 408; `none` models a present
  -- key holding JSON null (falsy), the common shape of this field
  version : Option String := none
  duration : Int := 0
  media_number : Int := 0
  track_number : Int := 0
  hires : Bool := false
  url : Option String := none
  isrc : Option String := none
  copyright : Option String := none
  maximum_sampling_rate : ℚ := 0
  maximum_bit_depth : Int := 0
  format_id : Option Int := none
deriving DecidableEq, Repr

/-- An upstream playlist `owner` map. -/
structure OwnerObj where
  name : String := ""
  id : Nat := 0
deriving DecidableEq, Repr

/-- An upstream playlist record. -/
structure PlaylistObj where
  id : Option Nat := none
  name : String := ""
  owner : OwnerObj := {}
  is_collaborative : Bool := false
  images300 : Option (List String) := none
  url : Option String := none
deriving DecidableEq, Repr

/-! ## Domain model (host `models` module, consumed here) -/

/-- A per-provider id entry appended to `provider_ids` (a plain dict in the
source; the track entry carries `quality` and `details`, others do not). -/
structure ProviderId where
  provider : String
  item_id : Nat
  quality : Option TrackQuality := none
  details : Option String := none
deriving DecidableEq, Repr

/-- Modelled from the spec: the unified `Artist` entity (§3) constructed by
`Artist()` with empty defaults and populated field by field. -/
structure Artist where
  item_id : ItemId := ItemId.str ("")
  provider : String := ""
  provider_ids : List ProviderId := []
  name : String := ""
  metadata : List (String × String) := []
deriving DecidableEq, Repr

/-- A value stored in `track.artists`: the module appends either a parsed
`Artist`, the Python `None` left in the local `artist` variable by a failed
album-artist parse, or the un-awaited coroutine produced by the missing
`await` on `self.get_artist(...)` (line 387). -/
inductive ArtistSlot where
  | pynone
  | val (a : Artist)
  | coro (artistId : Nat)
deriving DecidableEq, Repr

/-- Modelled from the spec: the unified `Album` entity (§3). -/
structure Album where
  item_id : Nat := 0
  provider : String := ""
  provider_ids : List ProviderId := []
  name : String := ""
  version : Option String := none
  artist : Option Artist := none
  albumtype : AlbumType := AlbumType.Album
  tags : List String := []
  metadata : List (String × String) := []
  external_ids : List (String × String) := []
  labels : List String := []
  year : Option Int := none
deriving DecidableEq, Repr

/-- Modelled from the spec: the unified `Track` entity (§3). -/
structure Track where
  item_id : Nat := 0
  provider : String := ""
  artists : List ArtistSlot := []
  name : String := ""
  version : Option String := none
  duration : Int := 0
  album : Option Album := none
  disc_number : Int := 0
  track_number : Int := 0
  metadata : List (String × String) := []
  external_ids : List (String × String) := []
  provider_ids : List ProviderId := []
deriving DecidableEq, Repr

/-- Modelled from the spec: the unified `Playlist` entity (§3). -/
structure Playlist where
  item_id : Nat := 0
  provider : String := ""
  provider_ids : List ProviderId := []
  name : String := ""
  owner : String := ""
  is_editable : Bool := false
  metadata : List (String × String) := []
deriving DecidableEq, Repr

/-- A Python exception escaping a parse. -/
inductive PyErr where
  | keyError (k : String)
  | indexError
  | nameError (n : String)
  | typeError
  | exception (msg : String)
deriving DecidableEq, Repr

/-- External helpers used by the module but defined outside it:
`parse_track_title` from `utils`, the year of a Unix timestamp
(`datetime.datetime.fromtimestamp(ts).year`), and the interpreter's
str() rendering of numbers used in the `"%skHz %sbit"` details string. -/
structure Ctx where
  ptt : String → String × Option String
  yearOf : Int → Int
  fmtQ : ℚ → String
  fmtZ : Int → String

/-- The `"%skHz %sbit"` details string (lines 341, 446). -/
def detailsStr (ctx : Ctx) (sr : ℚ) (bd : Int) : String :=
  ctx.fmtQ sr ++ ("kHz ") ++ ctx.fmtZ bd ++ ("bit")

/-! ## `__parse_artist` (lines 305-327) -/

/-- The placeholder image fingerprint skipped on line 320. -/
def placeholderImg : String := "2a96cbd8b46e442fc41c2b86b821562f"

/-- Image selection loop of `__parse_artist` (lines 318-322): walk the key
preference order; a present value containing the placeholder fingerprint is
skipped (the `break` sits inside the inner `if`), a present clean value is
taken. -/
def pickArtistImage (im : ImageObj) : Option String :=
  [im.extralarge, im.large, im.medium, im.small].foldr
    (fun v acc =>
      match v with
      | some s => if s.isEmpty then acc else if strContains placeholderImg s then acc else some s
      | none => acc)
    none

/-- Image selection loop of `__parse_album` (lines 356-359): first present
value in preference order (the `break` follows the assignment directly). -/
def pickAlbumImage (im : ImageObj) : Option String :=
  [im.extralarge, im.large, im.medium, im.small].foldr
    (fun v acc =>
      match v with
      | some s => if s.isEmpty then acc else some s
      | none => acc)
    none

/-- `__parse_artist`: returns `none` exactly when the record's id is falsy,
otherwise a populated `Artist` (pure despite `async` in the source). -/
def parseArtist (a : ArtistObj) : Option Artist :=
  if !idTruthy a.id then none
  else
    some
      { item_id := ItemId.num (idOf a.id)
        provider := prov_id
        provider_ids := [{ provider := prov_id, item_id := idOf a.id }]
        name := a.name
        metadata :=
          (match a.image with
           | some im =>
             match pickArtistImage im with
             | some u => [(("image"), u)]
             | none => []
           | none => []) ++
          (match a.biography with
           | some b => [(("biography"), b.content.getD (""))]
           | none => []) ++
          (match a.url with
           | some u => if u.isEmpty then [] else [(("qobuz_url"), u)]
           | none => []) }

/-! ## `__parse_album` (lines 329-373) -/

/-- The `id`/`streamable`/`displayable` validity gate of `__parse_album`
(line 332) and `__parse_track` (line 378). -/
def validityGate (theId : Option Nat) (streamable displayable : Bool) : Bool :=
  idTruthy theId && streamable && displayable

/-- `__parse_album`: `Except.ok none` models the warned-and-skipped return
at line 335, `Except.error` a raised Python exception. -/
def parseAlbum (ctx : Ctx) (rec : AlbumObj) : Except PyErr (Option Album) :=
  if !validityGate rec.id rec.streamable rec.displayable then Except.ok none
  else
    let nv := ctx.ptt rec.title
    match rec.artist with
    | none => Except.error (PyErr.keyError ("artist"))
    | some artistObj =>
      match parseArtist artistObj with
      | none => Except.error (PyErr.exception ("No album artist"))
      | some art =>
        Except.ok (some
          { item_id := idOf rec.id
            provider := prov_id
            provider_ids :=
              [{ provider := prov_id, item_id := idOf rec.id
                 details := some (detailsStr ctx rec.maximum_sampling_rate rec.maximum_bit_depth) }]
            name := nv.1
            version := nv.2
            artist := some art
            albumtype :=
              if rec.product_type.getD ("") = ("single") then AlbumType.Single
              else if rec.product_type.getD ("") = ("compilation")
                      || strContains ("Various") artistObj.name then AlbumType.Compilation
              else AlbumType.Album
            tags := match rec.genre with | some g => [g.name] | none => []
            metadata :=
              (match rec.image with
               | some im =>
                 match pickAlbumImage im with
                 | some u => [(("image"), u)]
                 | none => []
               | none => []) ++
              (match rec.copyright with
               | some c => if c.isEmpty then [] else [(("copyright"), c)]
               | none => []) ++
              (if rec.hires then [(("hires"), ("true"))] else []) ++
              (match rec.url with
               | some u => if u.isEmpty then [] else [(("qobuz_url"), u)]
               | none => []) ++
              (match rec.description with
               | some d => if d.isEmpty then [] else [(("description"), d)]
               | none => [])
            external_ids := [(("upc"), rec.upc)]
            labels := match rec.label with | some l => strSplitOn ("/") l.name | none => []
            year := if intTruthy rec.released_at then some (ctx.yearOf (rec.released_at.getD 0)) else none })

/-! ## `__parse_track` (lines 375-448) -/

/-- The artist built in the performers-string fallback (lines 402-404):
only `name` and `item_id` are assigned, `item_id` holding the *name*. -/
def mkPerformerArtist (nm : String) : Artist :=
  { item_id := ItemId.str nm, name := nm }

/-- The performers-string loop (lines 398-405). `avar` is the current
binding of the Python local `artist` (`none` = unbound). Faithful to the
source, the `append` sits in the loop body *outside* the role check, so
every entry appends the current binding; an unbound binding raises
`NameError`, a too-short entry raises `IndexError` at `parts[1]`. -/
def tierCLoop (avar : Option ArtistSlot) (acc : List ArtistSlot) :
    List String → Except PyErr (List ArtistSlot)
  | [] => Except.ok acc
  | s :: rest =>
    let parts := strSplitOn (", ") s
    if parts.length < 2 then Except.error PyErr.indexError
    else
      let role := parts.getD 1 ("")
      let nm := parts.getD 0 ("")
      let avar2 :=
        if strContains ("artist") (strToLower role) then some (ArtistSlot.val (mkPerformerArtist nm))
        else avar
      match avar2 with
      | none => Except.error (PyErr.nameError ("artist"))
      | some v => tierCLoop avar2 (acc ++ [v]) rest

/-- Artist resolution of `__parse_track` (lines 384-405), three tiers:
performer field, album artist, performers string.  The result pairs the
accumulated `track.artists` value; the Python local `artist` is threaded as
an `Option ArtistSlot`. -/
def resolveTrackArtists (rec : TrackObj) : Except PyErr (List ArtistSlot) :=
  -- tier (a): `track_obj.get('performer') and not 'Various ' in track_obj['performer']`
  let tierA : Except PyErr (List ArtistSlot × Option ArtistSlot) :=
    match rec.performer with
    | some p =>
      if hasVariousKey p then Except.ok ([], none)
      else
        match parseArtist p with
        | some a => Except.ok ([ArtistSlot.val a], some (ArtistSlot.val a))
        | none =>
          -- missing `await`: `artist = self.get_artist(track_obj['performer']['id'])`
          match p.id with
          | none => Except.error (PyErr.keyError ("id"))
          | some i => Except.ok ([ArtistSlot.coro i], some (ArtistSlot.coro i))
    | none => Except.ok ([], none)
  match tierA with
  | Except.error e => Except.error e
  | Except.ok (arts, avar) =>
    if !arts.isEmpty then Except.ok arts
    else
      -- tier (b): album artist, same dict-key `'Various '` test
      let tierB : List ArtistSlot × Option ArtistSlot :=
        match rec.album with
        | some alb =>
          match alb.artist with
          | some aa =>
            if hasVariousKey aa then ([], avar)
            else
              match parseArtist aa with
              | some a => ([ArtistSlot.val a], some (ArtistSlot.val a))
              | none => ([], some ArtistSlot.pynone)
          | none => ([], avar)
        | none => ([], avar)
      if !tierB.1.isEmpty then Except.ok tierB.1
      else
        -- tier (c): `track_obj['performers']` (direct index) split and scanned
        match rec.performers with
        | none => Except.error (PyErr.keyError ("performers"))
        | some ps => tierCLoop tierB.2 [] (strSplitOn (" - ") ps)

/-- The quality chain of `__parse_track` (lines 430-441). -/
def trackQualityOf (rec : TrackObj) : TrackQuality :=
  if rec.maximum_sampling_rate > 192 then TrackQuality.FLAC_LOSSLESS_HI_RES_4
  else if rec.maximum_sampling_rate > 96 then TrackQuality.FLAC_LOSSLESS_HI_RES_3
  else if rec.maximum_sampling_rate > 48 then TrackQuality.FLAC_LOSSLESS_HI_RES_2
  else if rec.maximum_bit_depth > 16 then TrackQuality.FLAC_LOSSLESS_HI_RES_1
  else if rec.format_id.getD 0 = 5 then TrackQuality.LOSSY_AAC
  else TrackQuality.FLAC_LOSSLESS

/-- The embedded album of a track (lines 411-414): parsed when the `album`
key is present, kept only when the parse yields a value. -/
def albumOfTrack (ctx : Ctx) (rec : TrackObj) : Except PyErr (Option Album) :=
  match rec.album with
  | none => Except.ok none
  | some a => parseAlbum ctx a

/-- `__parse_track`: validity gate, artist resolution, title split,
embedded album, opportunistic metadata, quality chain, provider-id entry. -/
def parseTrack (ctx : Ctx) (rec : TrackObj) : Except PyErr (Option Track) :=
  if !validityGate rec.id rec.streamable rec.displayable then Except.ok none
  else
    match resolveTrackArtists rec with
    | Except.error e => Except.error e
    | Except.ok artists =>
      let nv := ctx.ptt rec.title
      let ver := if strTruthy nv.2 then nv.2 else if strTruthy rec.version then rec.version else nv.2
      match albumOfTrack ctx rec with
      | Except.error e => Except.error e
      | Except.ok alb =>
        Except.ok (some
          { item_id := idOf rec.id
            provider := prov_id
            artists := artists
            name := nv.1
            version := ver
            duration := rec.duration
            album := alb
            disc_number := rec.media_number
            track_number := rec.track_number
            metadata :=
              (if rec.hires then [(("hires"), ("true"))] else []) ++
              (match rec.url with
               | some u => if u.isEmpty then [] else [(("qobuz_url"), u)]
               | none => []) ++
              (match rec.performers with
               | some p => if p.isEmpty then [] else [(("performers"), p)]
               | none => []) ++
              (match rec.copyright with
               | some c => if c.isEmpty then [] else [(("copyright"), c)]
               | none => [])
            external_ids :=
              match rec.isrc with
              | some i => if i.isEmpty then [] else [(("isrc"), i)]
              | none => []
            provider_ids :=
              [{ provider := prov_id, item_id := idOf rec.id
                 quality := some (trackQualityOf rec)
                 details := some (detailsStr ctx rec.maximum_sampling_rate rec.maximum_bit_depth) }] })

/-! ## `__parse_playlist` (lines 450-468) and provider state -/

/-- The stored login payload (`self.__user_auth_info`), reduced to the
fields the module reads. -/
structure AuthInfo where
  token : String := ""
  userId : Nat := 0
  deviceId : Nat := 0
  credentialId : Nat := 0
  displayName : String := ""
deriving DecidableEq, Repr

/-- Mutable provider state touched by the modelled operations. -/
structure ProvState where
  userAuthInfo : Option AuthInfo := none
deriving DecidableEq, Repr

/-- `__parse_playlist`: gate on id; editability compares the owner id with
`self.__user_auth_info["user"]["id"]`, a `TypeError` when no session is
stored (the comparison is evaluated before the `or`). -/
def parsePlaylist (st : ProvState) (rec : PlaylistObj) : Except PyErr (Option Playlist) :=
  if !idTruthy rec.id then Except.ok none
  else
    match st.userAuthInfo with
    | none => Except.error PyErr.typeError
    | some auth =>
      Except.ok (some
        { item_id := idOf rec.id
          provider := prov_id
          provider_ids := [{ provider := prov_id, item_id := idOf rec.id }]
          name := rec.name
          owner := rec.owner.name
          is_editable := (rec.owner.id == auth.userId) || rec.is_collaborative
          metadata :=
            (match rec.images300 with
             | some (u :: _) => [(("image"), u)]
             | some [] => []
             | none => []) ++
            (match rec.url with
             | some u => if u.isEmpty then [] else [(("qobuz_url"), u)]
             | none => []) })

/-! ## Quality chain, spec-side reading (for the refinement claim) -/

/-- The quality classification as the spec words it: a total function of
(maximum sampling rate, maximum bit depth, format id) with the first
matching rule winning — > 192 kHz, > 96 kHz, > 48 kHz, bit depth > 16,
lossy-AAC format code, standard lossless. -/
def qualityChainSpec (sr : ℚ) (bd : Int) (fid : Int) : TrackQuality :=
  if sr > 192 then TrackQuality.FLAC_LOSSLESS_HI_RES_4
  else if sr > 96 then TrackQuality.FLAC_LOSSLESS_HI_RES_3
  else if sr > 48 then TrackQuality.FLAC_LOSSLESS_HI_RES_2
  else if bd > 16 then TrackQuality.FLAC_LOSSLESS_HI_RES_1
  else if fid = 5 then TrackQuality.LOSSY_AAC
  else TrackQuality.FLAC_LOSSLESS

/-! ## Outbound-call traces (`__get_data` lines 533-535, `__post_data` line 552) -/

inductive HttpMethod where
  | get
  | post
deriving DecidableEq, Repr

/-- An observable step of an outbound call: acquiring a slot of the shared
rate limiter, or dispatching an HTTP request. -/
inductive NetEvent where
  | acquireSlot
  | dispatch (m : HttpMethod)
deriving DecidableEq, Repr

/-- The network interaction of `__get_data` (lines 533-535):
`async with self.throttler` wraps `http_session.get`. -/
def getDataNetTrace : List NetEvent :=
  [NetEvent.acquireSlot, NetEvent.dispatch HttpMethod.get]

/-- The network interaction of `__post_data` (lines 547-552): none.
Evaluating the unbound module-level name `QOBUZ_APP_ID` at line 550 raises
`NameError` before the `http_session.post` at line 552 is reached, so the
path acquires no limiter slot and dispatches no request (the `post` call,
had it been reached, sits outside any `async with self.throttler` block). -/
def postDataNetTrace : List NetEvent :=
  []

/-- Worker for `slotBeforeDispatch`: `held` records whether a limiter slot
has been acquired earlier in the trace. -/
def sbdGo (held : Bool) : List NetEvent → Bool
  | [] => true
  | NetEvent.acquireSlot :: r => sbdGo true r
  | NetEvent.dispatch _ :: r => held && sbdGo held r

/-- Every dispatch in the trace is preceded by a limiter-slot acquisition. -/
def slotBeforeDispatch (tr : List NetEvent) : Bool :=
  sbdGo false tr

/-! ## `__get_all_items`, full-listing branch (lines 493-511) -/

/-- One page of a paged response: the payload under
`result[key]`, with its reported `total` and `items`. A server is a
function from offset to `Option PageResp`; `none` models a failed
`__get_data` call or a response without the key (line 503's else). -/
structure PageResp (α : Type) where
  total : Nat
  items : List α
deriving DecidableEq, Repr

/-- The `while count < total_items` loop (lines 499-510), fuel-indexed:
each successful page updates the total, advances the offset by the page
size 200, and accumulates items; a failed page breaks and returns the
partial accumulation. -/
def getAllLoop {α : Type} (server : Nat → Option (PageResp α)) :
    Nat → Nat → Nat → Nat → List α → List α
  | 0, _, _, _, items => items
  | Nat.succ fuel, off, total, count, items =>
    if count < total then
      match server off with
      | some pg => getAllLoop server fuel (off + 200) pg.total (count + pg.items.length) (items ++ pg.items)
      | none => items
    else items

/-- The full-listing entry state (lines 495-498): offset 0, assumed total 1,
count 0, no items. -/
def getAllItemsFull {α : Type} (server : Nat → Option (PageResp α)) (fuel : Nat) : List α :=
  getAllLoop server fuel 0 1 0 []

/-- A well-behaved server backed by a fixed item list: stable reported
total, page at `off` = 200 items starting at `off`. -/
def listServer {α : Type} (L : List α) : Nat → Option (PageResp α) :=
  fun off => some { total := L.length, items := (L.drop off).take 200 }

/-- The same server, except every request at offset `failOff` or beyond
fails (models a page request failing partway through the listing). -/
def serverFailFrom {α : Type} (L : List α) (failOff : Nat) : Nat → Option (PageResp α) :=
  fun off => if off < failOff then listServer L off else none

/-! ## Request signing (`__get_data`, lines 520-531) -/

/-- Python dict access `params[key]` over an association list. -/
def lookupStr (k : String) : List (String × String) → Option String
  | [] => none
  | p :: rest => if p.1 = k then some p.2 else lookupStr k rest

/-- `keys.sort()` on the parameter keys (Python string sort). -/
def sortStrings (l : List String) : List String :=
  List.insertionSort (fun a b => a ≤ b) l

/-- The string fed to the hash (lines 521-527): endpoint segments with the
separators stripped, then `key + value` for every key in sorted order, then
the timestamp and the application secret. -/
def signedBase (endpoint : String) (params : List (String × String)) (ts secret : String) : String :=
  String.join (strSplitOn ("/") endpoint)
    ++ String.join ((sortStrings (params.map Prod.fst)).map
        (fun k => k ++ (lookupStr k params).getD ("")))
    ++ ts ++ secret

/-- `request_sig` (line 528): the hex digest of the 128-bit hash of the
base string; the hash itself (`hashlib.md5`) lives outside the module and
is abstracted as `h`. -/
def signRequest (h : String → String) (endpoint : String)
    (params : List (String × String)) (ts secret : String) : String :=
  h (signedBase endpoint params ts secret)

/-- The signing base string as the spec words it (§4.2): concatenate
endpoint path segments (separators stripped), then for every parameter key
in lexicographic order append `key+value`, then the timestamp and the
application secret. -/
def specSignString (endpoint : String) (params : List (String × String)) (ts secret : String) : String :=
  String.join (strSplitOn ("/") endpoint)
    ++ String.join ((sortStrings (params.map Prod.fst)).map
        (fun k => k ++ (lookupStr k params).getD ("")))
    ++ ts ++ secret

/-! ## `__get_data` result handling (lines 533-545) -/

/-- A parsed response body: presence of the `'error'` key plus an opaque
payload distinguishing documents. -/
structure JsonObj where
  errorField : Option String := none
  payload : Nat := 0
deriving DecidableEq, Repr

/-- The outcome of the guarded transport interaction: a raised exception
(timeout, connection error, non-JSON body), or a parsed body, itself
possibly falsy (`not result`). -/
inductive NetOutcome where
  | raised
  | body (j : Option JsonObj)
deriving DecidableEq, Repr

/-- The `try`-block of `__get_data` (lines 533-545): any exception is
caught, logged and turned into `None`; a falsy result or one carrying an
`'error'` key is logged and turned into `None`; otherwise the body is
returned. -/
def getDataNet (o : NetOutcome) : Option JsonObj :=
  match o with
  | NetOutcome.raised => none
  | NetOutcome.body none => none
  | NetOutcome.body (some j) => if j.errorField.isSome then none else some j

/-- The outcomes the claim calls failures: transport-level failure or an
application-level error field. -/
def isFailureOutcome (o : NetOutcome) : Bool :=
  match o with
  | NetOutcome.raised => true
  | NetOutcome.body none => true
  | NetOutcome.body (some j) => j.errorField.isSome

/-! ## `search` result assembly (lines 55-94) -/

/-- The remote search payload: one optional keyed section per media kind
(`"artists" in searchresult` is key presence), each holding its `items`. -/
structure SearchResp where
  artists : Option (List ArtistObj) := none
  albums : Option (List AlbumObj) := none
  tracks : Option (List TrackObj) := none
  playlists : Option (List PlaylistObj) := none
deriving DecidableEq, Repr

/-- An element of one of the four result lists. The playlist case keeps the
`Option`: line 93 appends `__parse_playlist`'s result without a `None`
check. -/
inductive MediaItem where
  | artistItem (a : Artist)
  | albumItem (a : Album)
  | trackItem (t : Track)
  | playlistItem (p : Option Playlist)
deriving DecidableEq, Repr

/-- The dict built at lines 57-62: exactly four keys, each an empty list. -/
def emptySearchResult : List (String × List MediaItem) :=
  [(("artists"), []), (("albums"), []), (("tracks"), []), (("playlists"), [])]

/-- In-place mutation of one key's list (`result[k].append(...)` repeated),
as a keys-preserving map over the association list. -/
def setKey (k : String) (f : List MediaItem → List MediaItem)
    (res : List (String × List MediaItem)) : List (String × List MediaItem) :=
  res.map (fun p => if p.1 = k then (p.1, f p.2) else p)

/-- Lines 77-80: parse each artist item, append the truthy ones. -/
def parseArtistItems (items : List ArtistObj) : List MediaItem :=
  (items.filterMap parseArtist).map MediaItem.artistItem

/-- Lines 82-85: parse each album item, appending the truthy ones; a raised
parse exception propagates. -/
def parseAlbumItems (ctx : Ctx) : List AlbumObj → Except PyErr (List MediaItem)
  | [] => Except.ok []
  | o :: rest =>
    match parseAlbum ctx o with
    | Except.error e => Except.error e
    | Except.ok none => parseAlbumItems ctx rest
    | Except.ok (some a) =>
      match parseAlbumItems ctx rest with
      | Except.error e => Except.error e
      | Except.ok l => Except.ok (MediaItem.albumItem a :: l)

/-- Lines 87-90: same for tracks. -/
def parseTrackItems (ctx : Ctx) : List TrackObj → Except PyErr (List MediaItem)
  | [] => Except.ok []
  | o :: rest =>
    match parseTrack ctx o with
    | Except.error e => Except.error e
    | Except.ok none => parseTrackItems ctx rest
    | Except.ok (some t) =>
      match parseTrackItems ctx rest with
      | Except.error e => Except.error e
      | Except.ok l => Except.ok (MediaItem.trackItem t :: l)

/-- Lines 92-93: playlists are appended without a truthiness check. -/
def parsePlaylistItems (st : ProvState) : List PlaylistObj → Except PyErr (List MediaItem)
  | [] => Except.ok []
  | o :: rest =>
    match parsePlaylist st o with
    | Except.error e => Except.error e
    | Except.ok p =>
      match parsePlaylistItems st rest with
      | Except.error e => Except.error e
      | Except.ok l => Except.ok (MediaItem.playlistItem p :: l)

/-- The four per-section updates of `search` applied in source order; a
missing section leaves the result untouched. -/
def stepArtists (sec : Option (List ArtistObj)) (r : List (String × List MediaItem)) :
    List (String × List MediaItem) :=
  match sec with
  | none => r
  | some its => setKey ("artists") (fun l => l ++ parseArtistItems its) r

def stepAlbums (ctx : Ctx) (sec : Option (List AlbumObj)) (r : List (String × List MediaItem)) :
    Except PyErr (List (String × List MediaItem)) :=
  match sec with
  | none => Except.ok r
  | some its =>
    match parseAlbumItems ctx its with
    | Except.error e => Except.error e
    | Except.ok ms => Except.ok (setKey ("albums") (fun l => l ++ ms) r)

def stepTracks (ctx : Ctx) (sec : Option (List TrackObj)) (r : List (String × List MediaItem)) :
    Except PyErr (List (String × List MediaItem)) :=
  match sec with
  | none => Except.ok r
  | some its =>
    match parseTrackItems ctx its with
    | Except.error e => Except.error e
    | Except.ok ms => Except.ok (setKey ("tracks") (fun l => l ++ ms) r)

def stepPlaylists (st : ProvState) (sec : Option (List PlaylistObj)) (r : List (String × List MediaItem)) :
    Except PyErr (List (String × List MediaItem)) :=
  match sec with
  | none => Except.ok r
  | some its =>
    match parsePlaylistItems st its with
    | Except.error e => Except.error e
    | Except.ok ms => Except.ok (setKey ("playlists") (fun l => l ++ ms) r)

/-- `search` (lines 55-94), from the remote response on: start from the
four empty lists; a falsy `searchresult` skips all sections; otherwise each
present section contributes its parsed items. -/
def searchAssemble (ctx : Ctx) (st : ProvState) (osr : Option SearchResp) :
    Except PyErr (List (String × List MediaItem)) :=
  match osr with
  | none => Except.ok emptySearchResult
  | some sr =>
    match stepAlbums ctx sr.albums (stepArtists sr.artists emptySearchResult) with
    | Except.error e => Except.error e
    | Except.ok r2 =>
      match stepTracks ctx sr.tracks r2 with
      | Except.error e => Except.error e
      | Except.ok r3 => stepPlaylists st sr.playlists r3

/-! ## `mass_event` (lines 277-303) and `__post_data` (lines 547-559) -/

/-- The event details mapping delivered with a playback notification
(`msg_details`); `format_id` stands for `msg_details["details"]["format_id"]`. -/
structure EventDetails where
  provider : String := ""
  track_id : Nat := 0
  seconds : Int := 0
  format_id : Int := 0
deriving DecidableEq, Repr

/-- One telemetry event record (lines 288-290 / 300-302); `duration` is
present only for the ended event, `localFlag` models the `local` key. -/
structure StreamEvent where
  online : Bool := true
  sample : Bool := false
  intent : String := "stream"
  device_id : Nat := 0
  track_id : Nat := 0
  purchase : Bool := false
  date : Int := 0
  duration : Option Int := none
  credential_id : Nat := 0
  user_id : Nat := 0
  localFlag : Bool := false
  format_id : Int := 0
deriving DecidableEq, Repr

/-- The evaluation of the module-level name `QOBUZ_APP_ID` at line 550:
the name is never defined in qobuz.py and never imported (only
`get_app_var` is imported from `app_vars`), so Python name resolution
raises `NameError` on every call of `__post_data`. -/
def qobuzAppIdLookup : Except PyErr String :=
  Except.error (PyErr.nameError ("QOBUZ_APP_ID"))

/-- A POST request as assembled by `__post_data` (lines 547-552). -/
structure PostReq where
  endpoint : String
  app_id : String
  user_auth_token : String
  events : List StreamEvent
deriving DecidableEq, Repr

/-- `__auth_token` (lines 470-478): return the stored token, or perform a
login (the live call abstracted as `loginResult`), store the payload and
return its token; a failed login leaves `details` as `None` and the
subsequent subscript raises. -/
def authToken (loginResult : Option AuthInfo) (st : ProvState) :
    Except PyErr (String × ProvState) :=
  match st.userAuthInfo with
  | some a => Except.ok (a.token, st)
  | none =>
    match loginResult with
    | some d => Except.ok (d.token, { userAuthInfo := some d })
    | none => Except.error PyErr.typeError

/-- `__post_data`, request-assembly part (lines 547-552), statement by
statement: line 550 evaluates `QOBUZ_APP_ID` (raising `NameError`, see
`qobuzAppIdLookup`), line 551 would fetch the auth token, line 552 would
issue the POST; the ok branch assembling the request is therefore never
reached. -/
def postDataReq (loginResult : Option AuthInfo) (st : ProvState)
    (endpoint : String) (events : List StreamEvent) : Except PyErr (ProvState × PostReq) :=
  match qobuzAppIdLookup with
  | Except.error e => Except.error e
  | Except.ok appId =>
    match authToken loginResult st with
    | Except.error e => Except.error e
    | Except.ok (tok, st2) =>
      Except.ok (st2, { endpoint := endpoint, app_id := appId, user_auth_token := tok, events := events })

/-- `mass_event` (lines 277-303): the two guarded branches compose an event
record from the stored session and post it; any other message/provider
combination does nothing.  The result lists the POSTs issued. -/
def massEvent (loginResult : Option AuthInfo) (msg : String) (d : EventDetails)
    (now : Int) (st : ProvState) : Except PyErr (ProvState × List PostReq) :=
  if msg = ("streaming_started") ∧ d.provider = prov_id then
    match st.userAuthInfo with
    | none => Except.error PyErr.typeError
    | some auth =>
      let ev : StreamEvent :=
        { device_id := auth.deviceId, track_id := d.track_id, date := now
          credential_id := auth.credentialId, user_id := auth.userId, format_id := d.format_id }
      match postDataReq loginResult st ("track/reportStreamingStart") [ev] with
      | Except.error e => Except.error e
      | Except.ok (st2, req) => Except.ok (st2, [req])
  else if msg = ("streaming_ended") ∧ d.provider = prov_id then
    match st.userAuthInfo with
    | none => Except.error PyErr.typeError
    | some auth =>
      let ev : StreamEvent :=
        { device_id := auth.deviceId, track_id := d.track_id, date := now
          duration := some d.seconds
          credential_id := auth.credentialId, user_id := auth.userId, format_id := d.format_id }
      match postDataReq loginResult st ("track/reportStreamingStart") [ev] with
      | Except.error e => Except.error e
      | Except.ok (st2, req) => Except.ok (st2, [req])
  else Except.ok (st, [])

/-! ## Derived predicates used by the claims -/

/-- A gate-passing album record whose artist cannot be resolved: the
`artist` key is missing (a `KeyError` at line 344's subscript) or
`__parse_artist` yields no value (line 345's raise). -/
def albumArtistUnresolvable (rec : AlbumObj) : Bool :=
  match rec.artist with
  | none => true
  | some a => (parseArtist a).isNone

/-! ## Concrete records used by the witnesses -/

/-- A concrete context: identity title split, constant year/format. -/
def ctx0 : Ctx :=
  { ptt := fun s => (s, none), yearOf := fun _ => 0, fmtQ := fun _ => "", fmtZ := fun _ => "" }

/-- A provider state with no stored session. -/
def st0 : ProvState := {}

/-- A performer record with a valid id. -/
def perf1 : ArtistObj := { id := some 2, name := "Alice" }

/-- A valid track record whose performer resolves directly. -/
def rec1 : TrackObj :=
  { id := some 7, streamable := true, displayable := true
    performer := some perf1
    title := "Song", duration := 100, media_number := 1, track_number := 3
    maximum_sampling_rate := 44, maximum_bit_depth := 16 }

/-- The track `__parse_track` produces from `rec1` under `ctx0`. -/
def trk1 : Track :=
  { item_id := 7, provider := prov_id
    artists := [ArtistSlot.val
      { item_id := ItemId.num 2, provider := prov_id
        provider_ids := [{ provider := prov_id, item_id := 2 }], name := "Alice" }]
    name := "Song", duration := 100, disc_number := 1, track_number := 3
    provider_ids := [{ provider := prov_id, item_id := 7
                       quality := some TrackQuality.FLAC_LOSSLESS
                       details := some ("kHz bit") }] }

/-- A valid track record with no performer and no album, whose performers
string holds one artist-role entry followed by a producer entry. -/
def rec2 : TrackObj :=
  { id := some 1, streamable := true, displayable := true
    performers := some ("Alice, MainArtist - Bob, Producer")
    title := "Song", duration := 100, media_number := 1, track_number := 1
    maximum_sampling_rate := 44, maximum_bit_depth := 16 }

/-- An album record with no id. -/
def recBadAlbum : AlbumObj := { id := none }

/-- A track record marked non-streamable. -/
def recBadTrack : TrackObj := { id := some 3, streamable := false }

/-- A gate-passing album record whose `artist` key is missing. -/
def recA : AlbumObj :=
  { id := some 9, streamable := true, displayable := true, title := "X", artist := none }

end Qobuz

deriving instance DecidableEq for Except

namespace Qobuz

/-! # Theorems -/

/-- Claim C1: for every track record the normalizer returns a track for
(which requires passing the validity gate), the quality tier carried by
the track's provider-id entry is the total, order-sensitive function of
(maximum sampling rate, maximum bit depth, format id) described by the
spec's rule chain, first match winning. -/
theorem c1_track_quality_chain (ctx : Ctx) (rec : TrackObj) (t : Track)
    (h : parseTrack ctx rec = Except.ok (some t)) :
    t.provider_ids.map ProviderId.quality =
      [some (qualityChainSpec rec.maximum_sampling_rate rec.maximum_bit_depth
        (rec.format_id.getD 0))] := by
  unfold parseTrack at h
  by_cases hg : (!validityGate rec.id rec.streamable rec.displayable) = true
  · rw [if_pos hg] at h
    exact absurd h (by simp)
  · rw [if_neg hg] at h
    cases hr : resolveTrackArtists rec with
    | error e => rw [hr] at h; exact absurd h (by simp)
    | ok artists =>
      rw [hr] at h
      cases ha : albumOfTrack ctx rec with
      | error e => rw [ha] at h; exact absurd h (by simp)
      | ok alb =>
        rw [ha] at h
        simp only [Except.ok.injEq, Option.some.injEq] at h
        subst h
        rfl

/-- Claim C1 witness: a concrete valid track record parsed end to end. -/
theorem c1_track_quality_chain_witness :
    parseTrack ctx0 rec1 = Except.ok (some trk1) ∧
    trk1.provider_ids.map ProviderId.quality =
      [some (qualityChainSpec rec1.maximum_sampling_rate rec1.maximum_bit_depth
        (rec1.format_id.getD 0))] :=
  ⟨by decide, c1_track_quality_chain ctx0 rec1 trk1 (by decide)⟩

/-- Claim C2, evaluated at the failing input: on a gate-passing track with
no performer and no album artist, the performers-string fallback appends
the current `artist` binding for *every* entry (the `append` sits outside
the role check), so `"Alice, MainArtist - Bob, Producer"` yields the
artist-role entry Alice twice instead of keeping only the artist-role
entries. -/
theorem c2_performers_loop_duplicates :
    (parseTrack ctx0 rec2).map (Option.map Track.artists) =
      Except.ok (some [ArtistSlot.val (mkPerformerArtist ("Alice")),
                       ArtistSlot.val (mkPerformerArtist ("Alice"))]) := by
  decide

/-- Claim C3 counterexample: the telemetry POST path never takes part in
the rate-limiter protocol the claim ascribes to it — its network trace
contains no slot acquisition (nor any dispatch), and a concrete
`streaming_started` event for this provider makes the handler raise
`NameError` on the unbound `QOBUZ_APP_ID` (line 550) instead of
performing a slot-guarded POST dispatch. -/
theorem c3_post_path_never_acquires_slot :
    NetEvent.acquireSlot ∉ postDataNetTrace ∧
    massEvent none ("streaming_started") { provider := prov_id, track_id := 1, format_id := 5 } 0
        { userAuthInfo := some {} } =
      Except.error (PyErr.nameError ("QOBUZ_APP_ID")) := by
  exact ⟨by decide, by decide⟩

/-- Claim C3 amended: every request the provider actually dispatches is a
GET issued through `__get_data` and is preceded by an acquisition of the
single shared rate limiter (2 requests per 1-second window); the telemetry
POST path neither acquires a limiter slot nor dispatches a request —
`__post_data` raises `NameError` on the unbound module-level name
`QOBUZ_APP_ID` (line 550) on every call, before the post at line 552. -/
theorem c3_throttling_amended :
    slotBeforeDispatch getDataNetTrace = true ∧
    postDataNetTrace = [] ∧
    (∀ (lr : Option AuthInfo) (st : ProvState) (endpoint : String) (events : List StreamEvent),
        postDataReq lr st endpoint events = Except.error (PyErr.nameError ("QOBUZ_APP_ID"))) ∧
    throttlerRateLimit = 2 ∧ throttlerPeriod = 1 := by
  exact ⟨by decide, rfl, fun lr st endpoint events => rfl, rfl, rfl⟩

/-- Claim C4: an album or track record lacking an identifier, or with
`streamable = false`, or with `displayable = false`, is rejected by the
corresponding normalizer with no value (never a partial object). -/
theorem c4_validity_gate_rejects :
    (∀ (ctx : Ctx) (rec : AlbumObj),
        idTruthy rec.id = false ∨ rec.streamable = false ∨ rec.displayable = false →
        parseAlbum ctx rec = Except.ok none) ∧
    (∀ (ctx : Ctx) (rec : TrackObj),
        idTruthy rec.id = false ∨ rec.streamable = false ∨ rec.displayable = false →
        parseTrack ctx rec = Except.ok none) := by
  constructor
  · intro ctx rec h
    have hg : validityGate rec.id rec.streamable rec.displayable = false := by
      unfold validityGate
      rcases h with h | h | h <;> simp [h]
    simp [parseAlbum, hg]
  · intro ctx rec h
    have hg : validityGate rec.id rec.streamable rec.displayable = false := by
      unfold validityGate
      rcases h with h | h | h <;> simp [h]
    simp [parseTrack, hg]

/-- Claim C4 witness: an id-less album record and a non-streamable track
record are both rejected. -/
theorem c4_validity_gate_rejects_witness :
    parseAlbum ctx0 recBadAlbum = Except.ok none ∧
    parseTrack ctx0 recBadTrack = Except.ok none :=
  ⟨c4_validity_gate_rejects.1 ctx0 recBadAlbum (Or.inl (by decide)),
   c4_validity_gate_rejects.2 ctx0 recBadTrack (Or.inr (Or.inl (by decide)))⟩

/-- Claim C7: inside `__get_data`'s guarded block, every transport-level
failure and every response carrying an application-level error field
yields an absent result, and any value that is returned carries no error
field — the failure never escapes as an exception (the embedding is a
total function into `Option`). -/
theorem c7_getdata_failure_handling :
    (∀ o : NetOutcome, isFailureOutcome o = true → getDataNet o = none) ∧
    (∀ (o : NetOutcome) (j : JsonObj), getDataNet o = some j → j.errorField = none) := by
  constructor
  · intro o h
    cases o with
    | raised => rfl
    | body b =>
      cases b with
      | none => rfl
      | some j =>
        simp only [isFailureOutcome] at h
        simp [getDataNet, h]
  · intro o j h
    cases o with
    | raised => exact absurd h (by simp [getDataNet])
    | body b =>
      cases b with
      | none => exact absurd h (by simp [getDataNet])
      | some j2 =>
        simp only [getDataNet] at h
        by_cases he : j2.errorField.isSome = true
        · simp [he] at h
        · simp [he] at h
          subst h
          exact Option.not_isSome_iff_eq_none.mp he

/-- Claim C7 witness: a raised transport failure produces an absent
result. -/
theorem c7_getdata_failure_handling_witness :
    isFailureOutcome NetOutcome.raised = true ∧ getDataNet NetOutcome.raised = none :=
  ⟨rfl, c7_getdata_failure_handling.1 NetOutcome.raised rfl⟩

/-- Claim C8: a gate-passing album record whose artist cannot be resolved
makes `__parse_album` raise (a fatal fault for this record's parse), which
is distinct from the silent no-value return of the filtered case. -/
theorem c8_album_artist_fault (ctx : Ctx) (rec : AlbumObj)
    (hgate : validityGate rec.id rec.streamable rec.displayable = true)
    (hart : albumArtistUnresolvable rec = true) :
    (∃ e, parseAlbum ctx rec = Except.error e) ∧ parseAlbum ctx rec ≠ Except.ok none := by
  unfold parseAlbum
  rw [if_neg (by simp [hgate])]
  unfold albumArtistUnresolvable at hart
  cases ha : rec.artist with
  | none =>
    exact ⟨⟨PyErr.keyError ("artist"), rfl⟩, fun hc => Except.noConfusion hc⟩
  | some a =>
    rw [ha] at hart
    simp only [Option.isNone_iff_eq_none] at hart
    simp only [hart]
    exact ⟨⟨PyErr.exception ("No album artist"), rfl⟩, fun hc => Except.noConfusion hc⟩

/-- Claim C8 witness: a gate-passing album record with no artist key. -/
theorem c8_album_artist_fault_witness :
    validityGate recA.id recA.streamable recA.displayable = true ∧
    albumArtistUnresolvable recA = true ∧
    parseAlbum ctx0 recA ≠ Except.ok none :=
  ⟨by decide, by decide, (c8_album_artist_fault ctx0 recA (by decide) (by decide)).2⟩

/-- A found lookup entry is a member of the association list. -/
theorem mem_of_lookupStr_eq_some {p : List (String × String)} {k v : String}
    (h : lookupStr k p = some v) : (k, v) ∈ p := by
  induction p with
  | nil => exact absurd h (by simp [lookupStr])
  | cons hd tl ih =>
    unfold lookupStr at h
    by_cases hk : hd.1 = k
    · rw [if_pos hk] at h
      simp only [Option.some.injEq] at h
      subst h
      subst hk
      exact List.mem_cons_self _ _
    · rw [if_neg hk] at h
      exact List.mem_cons_of_mem _ (ih h)

/-- Under key uniqueness, a member of the association list is found. -/
theorem lookupStr_eq_some_of_mem {p : List (String × String)}
    (hnd : (p.map Prod.fst).Nodup) {k v : String} (hm : (k, v) ∈ p) :
    lookupStr k p = some v := by
  induction p with
  | nil => exact absurd hm (by simp)
  | cons hd tl ih =>
    rw [List.map_cons, List.nodup_cons] at hnd
    unfold lookupStr
    by_cases hk : hd.1 = k
    · rw [if_pos hk]
      rcases List.mem_cons.mp hm with he | ht
      · rw [← he]
      · exact absurd (hk ▸ List.mem_map_of_mem Prod.fst ht) hnd.1
    · rw [if_neg hk]
      rcases List.mem_cons.mp hm with he | ht
      · exact absurd (congrArg Prod.fst he.symm) hk
      · exact ih hnd.2 ht

/-- A key absent from the association list is not found. -/
theorem lookupStr_eq_none_of_not_mem {p : List (String × String)} {k : String}
    (h : k ∉ p.map Prod.fst) : lookupStr k p = none := by
  induction p with
  | nil => rfl
  | cons hd tl ih =>
    rw [List.map_cons] at h
    unfold lookupStr
    rw [if_neg (fun he => h (List.mem_cons.mpr (Or.inl he.symm)))]
    exact ih (fun ht => h (List.mem_cons_of_mem _ ht))

/-- Under key uniqueness, lookup is invariant under permutation of the
association list (Python dicts enumerate each key once). -/
theorem lookupStr_perm {p q : List (String × String)} (hpq : p.Perm q)
    (hnd : (p.map Prod.fst).Nodup) (k : String) : lookupStr k p = lookupStr k q := by
  cases hv : lookupStr k p with
  | some v =>
    exact (lookupStr_eq_some_of_mem ((hpq.map Prod.fst).nodup_iff.mp hnd)
      (hpq.subset (mem_of_lookupStr_eq_some hv))).symm
  | none =>
    by_cases hq : k ∈ q.map Prod.fst
    · rcases List.mem_map.mp hq with ⟨kv, hm2, he⟩
      have hkv : (k, kv.2) = kv := by
        rw [← he]
      have : lookupStr k p = some kv.2 :=
        lookupStr_eq_some_of_mem hnd (hpq.mem_iff.mpr (by rw [hkv]; exact hm2))
      rw [this] at hv
      exact absurd hv (by simp)
    · exact (lookupStr_eq_none_of_not_mem hq).symm

/-- Sorting is invariant under permutation of the input keys. -/
theorem sortStrings_eq_of_perm {l1 l2 : List String} (h : l1.Perm l2) :
    sortStrings l1 = sortStrings l2 :=
  List.eq_of_perm_of_sorted
    ((List.perm_insertionSort _ l1).trans (h.trans (List.perm_insertionSort _ l2).symm))
    (List.sorted_insertionSort _ l1) (List.sorted_insertionSort _ l2)

/-- Claim C6: the request signature is a deterministic function that is
independent of the enumeration order of the parameter mapping — any
permutation of the (unique-keyed) parameter list signs identically — and
it equals the hash of the canonical string the spec describes: endpoint
segments with separators stripped, `key+value` pairs in lexicographic key
order, the timestamp, the secret. -/
theorem c6_signing_order_independent (h : String → String) (endpoint ts secret : String)
    (p q : List (String × String)) (hpq : p.Perm q) (hnd : (p.map Prod.fst).Nodup) :
    signRequest h endpoint p ts secret = signRequest h endpoint q ts secret ∧
    signRequest h endpoint p ts secret = h (specSignString endpoint p ts secret) := by
  constructor
  · unfold signRequest signedBase
    have hsort : sortStrings (p.map Prod.fst) = sortStrings (q.map Prod.fst) :=
      sortStrings_eq_of_perm (hpq.map Prod.fst)
    have hfun : (fun k => k ++ (lookupStr k p).getD ("")) =
        (fun k => k ++ (lookupStr k q).getD ("")) :=
      funext (fun k => by rw [lookupStr_perm hpq hnd k])
    rw [hsort, hfun]
  · rfl

/-- Claim C6 witness: two enumeration orders of the same two-entry
parameter mapping sign identically. -/
theorem c6_signing_order_independent_witness :
    ([(("b"), ("2")), (("a"), ("1"))] : List (String × String)).Perm
      [(("a"), ("1")), (("b"), ("2"))] ∧
    signRequest (fun s => s) ("track/getFileUrl") [(("b"), ("2")), (("a"), ("1"))]
        ("77") ("secret") =
      signRequest (fun s => s) ("track/getFileUrl") [(("a"), ("1")), (("b"), ("2"))]
        ("77") ("secret") :=
  ⟨by decide,
   (c6_signing_order_independent (fun s => s) ("track/getFileUrl") ("77") ("secret")
      [(("b"), ("2")), (("a"), ("1"))] [(("a"), ("1")), (("b"), ("2"))]
      (by decide) (by decide)).1⟩

/-- `setKey` only rewrites values: the key list is untouched. -/
theorem setKey_keys (k : String) (f : List MediaItem → List MediaItem)
    (res : List (String × List MediaItem)) :
    (setKey k f res).map Prod.fst = res.map Prod.fst := by
  unfold setKey
  rw [List.map_map]
  apply List.map_congr_left
  intro p _
  by_cases h : p.1 = k <;> simp [h]

/-- The artists step preserves the key list. -/
theorem stepArtists_keys (sec : Option (List ArtistObj)) (r : List (String × List MediaItem)) :
    (stepArtists sec r).map Prod.fst = r.map Prod.fst := by
  cases sec with
  | none => rfl
  | some its =>
    simp only [stepArtists]
    exact setKey_keys _ _ _

/-- The albums step preserves the key list when it succeeds. -/
theorem stepAlbums_keys (ctx : Ctx) (sec : Option (List AlbumObj))
    (r r2 : List (String × List MediaItem)) (h : stepAlbums ctx sec r = Except.ok r2) :
    r2.map Prod.fst = r.map Prod.fst := by
  cases sec with
  | none =>
    simp only [stepAlbums, Except.ok.injEq] at h
    rw [h]
  | some its =>
    simp only [stepAlbums] at h
    cases hp : parseAlbumItems ctx its with
    | error e => rw [hp] at h; exact absurd h (by simp)
    | ok ms =>
      rw [hp] at h
      simp only [Except.ok.injEq] at h
      rw [← h, setKey_keys]

/-- The tracks step preserves the key list when it succeeds. -/
theorem stepTracks_keys (ctx : Ctx) (sec : Option (List TrackObj))
    (r r2 : List (String × List MediaItem)) (h : stepTracks ctx sec r = Except.ok r2) :
    r2.map Prod.fst = r.map Prod.fst := by
  cases sec with
  | none =>
    simp only [stepTracks, Except.ok.injEq] at h
    rw [h]
  | some its =>
    simp only [stepTracks] at h
    cases hp : parseTrackItems ctx its with
    | error e => rw [hp] at h; exact absurd h (by simp)
    | ok ms =>
      rw [hp] at h
      simp only [Except.ok.injEq] at h
      rw [← h, setKey_keys]

/-- The playlists step preserves the key list when it succeeds. -/
theorem stepPlaylists_keys (st : ProvState) (sec : Option (List PlaylistObj))
    (r r2 : List (String × List MediaItem)) (h : stepPlaylists st sec r = Except.ok r2) :
    r2.map Prod.fst = r.map Prod.fst := by
  cases sec with
  | none =>
    simp only [stepPlaylists, Except.ok.injEq] at h
    rw [h]
  | some its =>
    simp only [stepPlaylists] at h
    cases hp : parsePlaylistItems st its with
    | error e => rw [hp] at h; exact absurd h (by simp)
    | ok ms =>
      rw [hp] at h
      simp only [Except.ok.injEq] at h
      rw [← h, setKey_keys]

/-- Claim C9: whenever `search` returns, the result mapping carries
exactly the four keys artists/albums/tracks/playlists, each bound to a
list; and a falsy remote search response yields the mapping with all four
lists empty rather than a failure or an absent value. -/
theorem c9_search_result_shape :
    (∀ (ctx : Ctx) (st : ProvState),
        searchAssemble ctx st none =
          Except.ok [(("artists"), []), (("albums"), []), (("tracks"), []), (("playlists"), [])]) ∧
    (∀ (ctx : Ctx) (st : ProvState) (sr : SearchResp) (m : List (String × List MediaItem)),
        searchAssemble ctx st (some sr) = Except.ok m →
        m.map Prod.fst = [("artists"), ("albums"), ("tracks"), ("playlists")]) := by
  constructor
  · intro ctx st
    rfl
  · intro ctx st sr m h
    simp only [searchAssemble] at h
    cases h2 : stepAlbums ctx sr.albums (stepArtists sr.artists emptySearchResult) with
    | error e => rw [h2] at h; exact absurd h (by simp)
    | ok r2 =>
      rw [h2] at h
      dsimp only [] at h
      cases h3 : stepTracks ctx sr.tracks r2 with
      | error e => rw [h3] at h; exact absurd h (by simp)
      | ok r3 =>
        rw [h3] at h
        dsimp only [] at h
        rw [stepPlaylists_keys st sr.playlists r3 m h,
            stepTracks_keys ctx sr.tracks r2 r3 h3,
            stepAlbums_keys ctx sr.albums (stepArtists sr.artists emptySearchResult) r2 h2,
            stepArtists_keys sr.artists emptySearchResult]
        rfl

/-- Claim C9 witness: an empty (but truthy) remote response keeps the
four-key shape. -/
theorem c9_search_result_shape_witness :
    searchAssemble ctx0 st0 (some {}) = Except.ok emptySearchResult ∧
    emptySearchResult.map Prod.fst = [("artists"), ("albums"), ("tracks"), ("playlists")] :=
  ⟨rfl, c9_search_result_shape.2 ctx0 st0 {} emptySearchResult rfl⟩

/-- Claim C10: an event whose details name a provider other than `qobuz`,
or whose message is neither `streaming_started` nor `streaming_ended`,
makes `mass_event` perform no POST and leave the provider state
unchanged. -/
theorem c10_mass_event_frame (lr : Option AuthInfo) (msg : String) (d : EventDetails)
    (now : Int) (st : ProvState)
    (h : d.provider ≠ prov_id ∨ (msg ≠ ("streaming_started") ∧ msg ≠ ("streaming_ended"))) :
    massEvent lr msg d now st = Except.ok (st, []) := by
  unfold massEvent
  rcases h with h | ⟨h1, h2⟩
  · rw [if_neg (by tauto), if_neg (by tauto)]
  · rw [if_neg (by tauto), if_neg (by tauto)]

/-- Unfolding equation of the full-listing loop at positive fuel. -/
theorem getAllLoop_succ {α : Type} (server : Nat → Option (PageResp α))
    (fuel off total count : Nat) (items : List α) :
    getAllLoop server (fuel + 1) off total count items =
      (if count < total then
        match server off with
        | some pg => getAllLoop server fuel (off + 200) pg.total (count + pg.items.length) (items ++ pg.items)
        | none => items
      else items) := rfl

/-- With a well-behaved list-backed server, the loop started at offset
`off` with count `min off |L|` finishes the listing. -/
theorem getAllLoop_listServer {α : Type} (L : List α) :
    ∀ (fuel off : Nat) (acc : List α), L.length ≤ off + 200 * fuel →
      getAllLoop (listServer L) fuel off L.length (min off L.length) acc = acc ++ L.drop off := by
  intro fuel
  induction fuel with
  | zero =>
    intro off acc h
    have hoff : L.length ≤ off := by omega
    rw [List.drop_eq_nil_of_le hoff]
    simp [getAllLoop]
  | succ fuel ih =>
    intro off acc h
    rw [getAllLoop_succ]
    by_cases hlt : off < L.length
    · have hmin : min off L.length = off := Nat.min_eq_left (Nat.le_of_lt hlt)
      rw [hmin, if_pos hlt]
      show getAllLoop (listServer L) fuel (off + 200) L.length
          (off + ((L.drop off).take 200).length) (acc ++ (L.drop off).take 200) = acc ++ L.drop off
      have hcnt : off + ((L.drop off).take 200).length = min (off + 200) L.length := by
        simp only [List.length_take, List.length_drop]
        omega
      rw [hcnt, ih (off + 200) (acc ++ (L.drop off).take 200) (by omega)]
      rw [List.append_assoc]
      congr 1
      have hdd : L.drop (off + 200) = (L.drop off).drop 200 := by
        rw [List.drop_drop]
      rw [hdd, List.take_append_drop]
    · have hge : L.length ≤ off := Nat.le_of_not_lt hlt
      have hmin : min off L.length = L.length := Nat.min_eq_right hge
      rw [hmin, if_neg (by omega), List.drop_eq_nil_of_le hge]
      simp

/-- With a server failing from offset `200 * k` on, the loop started at
offset `200 * j` (`j ≤ k`) accumulates exactly the pages up to the
failure. -/
theorem getAllLoop_serverFailFrom {α : Type} (L : List α) (k : Nat)
    (hk : 200 * k < L.length) :
    ∀ (fuel j : Nat) (acc : List α), j ≤ k → k ≤ j + fuel →
      getAllLoop (serverFailFrom L (200 * k)) fuel (200 * j) L.length (200 * j) acc
        = acc ++ (L.drop (200 * j)).take (200 * (k - j)) := by
  intro fuel
  induction fuel with
  | zero =>
    intro j acc hj hk2
    have : j = k := by omega
    subst this
    simp [getAllLoop]
  | succ fuel ih =>
    intro j acc hj hk2
    rw [getAllLoop_succ, if_pos (by omega)]
    by_cases hjk : j < k
    · have hsrv : serverFailFrom L (200 * k) (200 * j) =
          some { total := L.length, items := (L.drop (200 * j)).take 200 } := by
        unfold serverFailFrom
        rw [if_pos (by omega)]
        rfl
      rw [hsrv]
      show getAllLoop (serverFailFrom L (200 * k)) fuel (200 * j + 200) L.length
          (200 * j + ((L.drop (200 * j)).take 200).length)
          (acc ++ (L.drop (200 * j)).take 200) = acc ++ (L.drop (200 * j)).take (200 * (k - j))
      have hlen : ((L.drop (200 * j)).take 200).length = 200 := by
        simp only [List.length_take, List.length_drop]
        omega
      rw [hlen]
      have h1 : 200 * j + 200 = 200 * (j + 1) := by ring
      rw [h1, ih (j + 1) (acc ++ (L.drop (200 * j)).take 200) (by omega) (by omega)]
      rw [List.append_assoc]
      congr 1
      have hdd : L.drop (200 * (j + 1)) = (L.drop (200 * j)).drop 200 := by
        rw [List.drop_drop]
        congr 1
      have hta : 200 * (k - j) = 200 + 200 * (k - (j + 1)) := by omega
      rw [hdd, hta, List.take_add]
    · have hjeq : j = k := by omega
      subst hjeq
      have hsrv : serverFailFrom L (200 * j) (200 * j) = none := by
        unfold serverFailFrom
        rw [if_neg (by omega)]
      rw [hsrv]
      simp

/-- Claim C5: the full listing over a well-behaved server with a stable
reported total terminates with exactly the `total` (= `|L|`) items; when a
page request fails partway, the fewer-than-total items accumulated so far
are returned without an error being raised (the loop returns the partial
list). -/
theorem c5_pagination_best_effort :
    (∀ (α : Type) (L : List α),
        getAllItemsFull (listServer L) (L.length + 2) = L ∧
        (getAllItemsFull (listServer L) (L.length + 2)).length = L.length) ∧
    (∀ (α : Type) (L : List α) (k : Nat), 1 ≤ k → 200 * k < L.length →
        getAllItemsFull (serverFailFrom L (200 * k)) (k + 2) = L.take (200 * k) ∧
        (getAllItemsFull (serverFailFrom L (200 * k)) (k + 2)).length < L.length) := by
  constructor
  · intro α L
    have hmain : getAllItemsFull (listServer L) (L.length + 2) = L := by
      show getAllLoop (listServer L) (L.length + 1 + 1) 0 1 0 [] = L
      rw [getAllLoop_succ, if_pos (by omega)]
      show getAllLoop (listServer L) (L.length + 1) 200 L.length
          (0 + ((L.drop 0).take 200).length) ([] ++ (L.drop 0).take 200) = L
      have hcnt : 0 + ((L.drop 0).take 200).length = min 200 L.length := by
        simp [List.length_take]
      rw [hcnt, getAllLoop_listServer L (L.length + 1) 200 ([] ++ (L.drop 0).take 200) (by omega)]
      simp [List.take_append_drop]
    exact ⟨hmain, by rw [hmain]⟩
  · intro α L k hk1 hk2
    have hmain : getAllItemsFull (serverFailFrom L (200 * k)) (k + 2) = L.take (200 * k) := by
      show getAllLoop (serverFailFrom L (200 * k)) (k + 1 + 1) 0 1 0 [] = L.take (200 * k)
      rw [getAllLoop_succ, if_pos (by omega)]
      have hsrv : serverFailFrom L (200 * k) 0 =
          some { total := L.length, items := (L.drop 0).take 200 } := by
        unfold serverFailFrom
        rw [if_pos (by omega)]
        rfl
      rw [hsrv]
      show getAllLoop (serverFailFrom L (200 * k)) (k + 1) 200 L.length
          (0 + ((L.drop 0).take 200).length) ([] ++ (L.drop 0).take 200) = L.take (200 * k)
      have hlen : ((L.drop 0).take 200).length = 200 := by
        simp only [List.length_take, List.length_drop]
        omega
      rw [hlen]
      rw [List.nil_append, List.drop_zero]
      rw [show (0 + 200 : Nat) = 200 * 1 from by omega]
      rw [show (200 : Nat) = 200 * 1 from by omega]
      rw [getAllLoop_serverFailFrom L k hk2 (k + 1) 1 (L.take 200) hk1 (by omega)]
      have hta : 200 * k = 200 + 200 * (k - 1) := by omega
      rw [hta, List.take_add]
    refine ⟨hmain, ?_⟩
    rw [hmain, List.length_take]
    omega

/-- Claim C5 witness: a 401-item listing is returned whole by a
well-behaved server, and truncated to the first 200 items when the second
page request fails. -/
theorem c5_pagination_best_effort_witness :
    (getAllItemsFull (listServer (List.range 401)) ((List.range 401).length + 2) = List.range 401) ∧
    (getAllItemsFull (serverFailFrom (List.range 401) (200 * 1)) (1 + 2) =
      (List.range 401).take (200 * 1)) ∧
    (getAllItemsFull (serverFailFrom (List.range 401) (200 * 1)) (1 + 2)).length <
      (List.range 401).length :=
  ⟨(c5_pagination_best_effort.1 Nat (List.range 401)).1,
   (c5_pagination_best_effort.2 Nat (List.range 401) 1 (by decide)
      (by simp [List.length_range])).1,
   (c5_pagination_best_effort.2 Nat (List.range 401) 1 (by decide)
      (by simp [List.length_range])).2⟩

/-- Claim C10 witness: an unrelated event name with matching provider is
ignored. -/
theorem c10_mass_event_frame_witness :
    massEvent none ("queue_updated") { provider := prov_id, track_id := 1 } 0 st0 =
      Except.ok (st0, []) :=
  c10_mass_event_frame none ("queue_updated") { provider := prov_id, track_id := 1 } 0 st0
    (Or.inr ⟨by decide, by decide⟩)

end Qobuz
